import Mathlib

/-!
# Verification of the XRP insights dashboard data core

Shallow embedding of `src/data_ingestion.py` and `src/processing.py`.

Modelling conventions:
* JSON documents are the inductive `Json` below; Python `dict.get` is `Json.get`.
* The network is a parameter: each remote call is given the per-endpoint
  outcomes as a list of `(url, transport outcome)` pairs, where the transport
  outcome is `Except String Json` (`.error` = any exception raised by
  `requests.post` / `raise_for_status` / `.json()`, `.ok` = the decoded body).
* Python datetimes are modelled as `Int` seconds since the Unix epoch, always
  UTC-aware (every branch of the source attaches `timezone.utc`).
* The external date parser (`pd.to_datetime`) is a parameter
  `parse : String → Option Int`; `datetime.utcnow()` is a parameter `now : Int`.
* pandas `errors="coerce"` parsing of the aggregation inputs is modelled by
  `Option` fields (`none` = `NaT`/`NaN`), and floats by `Rat`.
-/

/-- JSON values as decoded by `response.json()`. Numbers are integers: every
numeric field the core reads (ledger sequence, close_time, limit) is integral. -/
inductive Json where
  | null
  | bool (b : Bool)
  | num (n : Int)
  | str (s : String)
  | arr (xs : List Json)
  | obj (fields : List (String × Json))

/-- Field lookup in a decoded JSON object (first binding wins, as in a dict). -/
def lookupField : List (String × Json) → String → Option Json
  | [], _ => none
  | (k', v) :: rest, k => if k' = k then some v else lookupField rest k

/-- Python `d.get(k)` / `k in d`: `none` on a missing key or a non-object. -/
def Json.get (j : Json) (k : String) : Option Json :=
  match j with
  | .obj fields => lookupField fields k
  | _ => none

/-- Python truthiness of a decoded JSON value. -/
def Json.truthy : Json → Bool
  | .null => false
  | .bool b => b
  | .num n => n ≠ 0
  | .str s => s ≠ ""
  | .arr xs => ¬xs.isEmpty
  | .obj fs => ¬fs.isEmpty

/-- Python `j.get(k, {}) or {}`: missing key or falsy value becomes `{}`. -/
def getObjOr (j : Json) (k : String) : Json :=
  match j.get k with
  | some v => if v.truthy then v else .obj []
  | none => .obj []

/-- Python `j.get(k, []) or []` read as a transaction list. -/
def getList (j : Json) (k : String) : List Json :=
  match j.get k with
  | some (.arr xs) => xs
  | _ => []

/-- Narrow an optional JSON value to a string (the `str | None` annotations). -/
def jstr? : Option Json → Option String
  | some (.str s) => some s
  | _ => none

/-- Narrow an optional JSON value to an integer (the `int | None` annotations). -/
def jint? : Option Json → Option Int
  | some (.num n) => some n
  | _ => none

/-! ## `_rpc`: endpoint rotation (`src/data_ingestion.py` lines 23-44) -/

/-- One endpoint attempt: the endpoint url and its transport outcome. -/
abbrev Attempt := String × Except String Json

/-- The `last_err` values the loop accumulates: a caught exception, or the
`RuntimeError(f"Bad RPC from {url}: {res}")` built for a body without "result". -/
inductive PyErr where
  | exc (msg : String)
  | badRpc (url : String) (res : Json)

/-- The `RuntimeError(f"All XRPL endpoints failed. Last error: {last_err}")`
raised after the loop; it carries the final `last_err` (`none` iff no endpoint
was ever attempted, in which case Python interpolates `None`). -/
structure AllEndpointsFailed where
  last_err : Option PyErr

/-- The `for url in ENDPOINTS` loop of `_rpc`, threading `last_err` and the
global `LAST_ENDPOINT` (`st`).  A successful attempt needs transport success
and a `"result"` field; it sets `LAST_ENDPOINT = url` and returns immediately. -/
def rpcLoop : List Attempt → Option PyErr → Option String →
    Except AllEndpointsFailed Json × Option String
  | [], lastErr, st => (.error ⟨lastErr⟩, st)
  | (url, att) :: rest, _lastErr, st =>
    match att with
    | .error e => rpcLoop rest (some (.exc e)) st
    | .ok res =>
      match res.get "result" with
      | some payload => (.ok payload, some url)
      | none => rpcLoop rest (some (.badRpc url res)) st

/-- `_rpc`, as a function of the per-endpoint outcomes and of the incoming
`LAST_ENDPOINT` global; returns the outcome and the new `LAST_ENDPOINT`. -/
def rpc (attempts : List Attempt) (st : Option String) :
    Except AllEndpointsFailed Json × Option String :=
  rpcLoop attempts none st

/-- The value `_rpc` returns or the error it raises (the state left aside,
for call sites that do not read `LAST_ENDPOINT`). -/
def rpcResult (attempts : List Attempt) : Except AllEndpointsFailed Json :=
  (rpc attempts none).1

/-- An endpoint attempt that `_rpc` treats as failed: a raised exception, or a
decoded body with no `"result"` field. -/
def attemptFails (a : Attempt) : Bool :=
  match a.2 with
  | .error _ => true
  | .ok res => (res.get "result").isNone

/-- The `last_err` value left by a run of the loop over `attempts` that never
returns (mirrors the accumulation in `_rpc`). -/
def lastErrOf : List Attempt → Option PyErr → Option PyErr
  | [], acc => acc
  | (url, att) :: rest, acc =>
    match att with
    | .error e => lastErrOf rest (some (.exc e))
    | .ok res =>
      match res.get "result" with
      | some _ => lastErrOf rest acc
      | none => lastErrOf rest (some (.badRpc url res))

/-! ## `_to_utc`: three-tier timestamp fallback (lines 46-56) -/

/-- `datetime.utcfromtimestamp` on Linux: defined exactly on the timestamps of
`datetime.min .. datetime.max` (years 1-9999); outside that range it raises. -/
def utcfromtimestamp (u : Int) : Option Int :=
  if -62135596800 ≤ u ∧ u ≤ 253402300799 then some u else none

/-- `_to_utc(close_time_human, close_time_unix)`.  `parse` is
`pd.to_datetime(·, utc=True)` (`none` = raises), `now` is `datetime.utcnow()`.
Note `int(close_time_unix or 0)`: an absent epoch field defaults to `0`. -/
def _to_utc (parse : String → Option Int) (now : Int)
    (close_time_human : Option String) (close_time_unix : Option Int) : Int :=
  let fallback :=
    match utcfromtimestamp (close_time_unix.getD 0) with
    | some t => t
    | none => now
  match close_time_human with
  | some s =>
    if s ≠ "" then
      match parse s with
      | some t => t
      | none => fallback
    else fallback
  | none => fallback

/-! ## `fetch_recent_transactions` (lines 58-101) -/

/-- Python `int(s)` applied to a string (plain decimal forms). -/
def pyInt? (s : String) : Option Int := s.trim.toInt?

/-- Lines 62-70: extract the latest validated ledger sequence from the
`server_info` result; fall back to the upper bound of the `complete_ledgers`
range string; `none` means no sequence could be determined. -/
def extractLatest (info : Json) : Option Int :=
  let infoObj := (info.get "info").getD (Json.obj [])
  let vl := (infoObj.get "validated_ledger").getD (Json.obj [])
  match vl.get "seq" with
  | some (.num n) => some n
  | _ =>
    match infoObj.get "complete_ledgers" with
    | some (.str cl) =>
      if (cl.splitOn "-").length ≥ 2 then
        pyInt? ((cl.splitOn "-").getLastD "")
      else none
    | _ => none

/-- A flattened `TransactionRecord` row, fields as `tx.get(...)` leaves them. -/
structure TxRow where
  hash : Option Json
  date_utc : Int
  amount : Option Json
  fee_drops : Option Json
  account : Option Json
  transaction_type : Option Json

/-- Line 88: `amt.get("value") if isinstance(amt, dict) else amt`. -/
def normalizeAmount : Option Json → Option Json
  | some (.obj fields) => lookupField fields "value"
  | a => a

/-- Line 85: `meta.get("TransactionResult") != "tesSUCCESS"`, negated. -/
def isTesSuccess : Option Json → Bool
  | some (.str s) => s = "tesSUCCESS"
  | _ => false

/-- Lines 83-96: keep a transaction iff its metadata carries the success
sentinel, flattening it into a `TxRow` (all rows of a block share `dt`). -/
def keepTx (dt : Int) (tx : Json) : Option TxRow :=
  let meta := getObjOr tx "metaData"
  if isTesSuccess (meta.get "TransactionResult") then
    some { hash := tx.get "hash"
           date_utc := dt
           amount := normalizeAmount (tx.get "Amount")
           fee_drops := tx.get "Fee"
           account := tx.get "Account"
           transaction_type := tx.get "TransactionType" }
  else none

/-- Line 80: the `ledger` call parameters for block `idx`. -/
def ledgerParams (idx : Int) : Json :=
  .obj [("ledger_index", .str (toString idx)), ("transactions", .bool true),
        ("expand", .bool true), ("binary", .bool false)]

/-- Line 77: `range(latest, latest - max(1, ledgers_back), -1)`. -/
def ledgerRange (latest : Int) (ledgers_back : Int) : List Int :=
  (List.range (max 1 ledgers_back).toNat).map (fun i => latest - i)

/-- Lines 78-96, one iteration: fetch block `idx` (a failed `_rpc` call skips
the block), stamp its close time, and keep its successful transactions.
`net` gives each remote call its per-endpoint transport outcomes. -/
def processLedger (net : String → Json → List Attempt) (parse : String → Option Int)
    (now : Int) (idx : Int) : List TxRow :=
  match rpcResult (net "ledger" (ledgerParams idx)) with
  | .error _ => []
  | .ok res =>
    let lgr := getObjOr res "ledger"
    let dt := _to_utc parse now (jstr? (lgr.get "close_time_human")) (jint? (lgr.get "close_time"))
    (getList lgr "transactions").filterMap (keepTx dt)

/-- `fetch_recent_transactions(ledgers_back)`.  The `Except` layer records
whether the call raises to its caller: in the source every path returns a
DataFrame — the initial `_rpc("server_info")` is wrapped in
`try/except Exception: return empty frame`, and each block fetch in
`try/except Exception: continue` — so every branch here is `.ok`, and `.ok []`
is the empty frame with the standard columns. -/
def fetch_recent_transactions (net : String → Json → List Attempt)
    (parse : String → Option Int) (now : Int) (ledgers_back : Int := 20) :
    Except AllEndpointsFailed (List TxRow) :=
  let latest? : Option Int :=
    match rpcResult (net "server_info" (.obj [])) with
    | .error _ => none
    | .ok info => extractLatest info
  match latest? with
  | none => .ok []
  | some latest =>
    .ok ((ledgerRange latest ledgers_back).flatMap (processLedger net parse now))

/-! ## `get_account_tx` (lines 111-118) -/

/-- The `account_tx` request parameters, with `"limit": int(limit)`
(`int` on an integer is the identity). -/
def account_tx_params (address : String) (limit : Int) : Json :=
  .obj [("account", .str address), ("limit", .num limit),
        ("ledger_index_min", .num (-1)), ("ledger_index_max", .num (-1))]

/-- `get_account_tx(address, limit=20)`: one `_rpc` call, then
`res.get("transactions", []) or []`. -/
def get_account_tx (net : String → Json → List Attempt) (address : String)
    (limit : Int := 20) : Except AllEndpointsFailed (List Json) :=
  match rpcResult (net "account_tx" (account_tx_params address limit)) with
  | .error e => .error e
  | .ok res => .ok (getList res "transactions")

/-! ## `src/processing.py`: per-minute aggregation -/

/-- An input row as the aggregation functions see it after the library parses:
`date_utc` is `pd.to_datetime(·, utc=True, errors="coerce")` (`none` = `NaT`),
`fee_drops` is `pd.to_numeric(·, errors="coerce")` (`none` = `NaN`). -/
structure InRec where
  date_utc : Option Int
  fee_drops : Option Rat

/-- One output row of `compute_txn_per_minute`: columns `minute, txn_count`. -/
structure CountBucket where
  minute : Int
  txn_count : Nat
deriving DecidableEq

/-- One output row of `compute_avg_fee`: columns `minute, avg_fee_xrp`. -/
structure FeeBucket where
  minute : Int
  avg_fee_xrp : Rat
deriving DecidableEq

/-- `s["date_utc"].dt.floor("min")`: the row's timestamp floored to its minute
(`none` propagates `NaT`). -/
def minuteOf (r : InRec) : Option Int :=
  r.date_utc.map (fun t => 60 * Int.fdiv t 60)

/-- Insert a key into an ascending duplicate-free key list, keeping it so. -/
def insertKey (x : Int) : List Int → List Int
  | [] => [x]
  | y :: ys => if x = y then y :: ys else if x < y then x :: y :: ys else y :: insertKey x ys

/-- The distinct group keys in ascending order, as `groupby` (which sorts its
keys) followed by `sort_values("minute")` produces them. -/
def groupKeys (ms : List Int) : List Int :=
  ms.foldr insertKey []

/-- `compute_txn_per_minute(df)`: `none` models a `None` DataFrame.  Rows whose
timestamp fails to parse are dropped (`dropna(subset=["minute"])`), the rest
are grouped by minute and counted. -/
def compute_txn_per_minute (df : Option (List InRec)) : List CountBucket :=
  match df with
  | none => []
  | some rows =>
    if rows.isEmpty then [] else
    let minutes := rows.filterMap minuteOf
    (groupKeys minutes).map (fun m => ⟨m, (minutes.filter (fun x => x = m)).length⟩)

/-- Lines 18-22, per row: `fee_xrp = to_numeric(fee_drops)/1_000_000` paired
with the floored minute; a row with an unparseable minute or fee is dropped
(`dropna(subset=["minute", "fee_xrp"])`). -/
def feePair (r : InRec) : Option (Int × Rat) :=
  match minuteOf r, r.fee_drops with
  | some m, some f => some (m, f / 1000000)
  | _, _ => none

/-- `compute_avg_fee(df)` body: group the per-row pairs by minute and take the
arithmetic mean of the `fee_xrp` column within each minute. -/
def compute_avg_fee (df : Option (List InRec)) : List FeeBucket :=
  match df with
  | none => []
  | some rows =>
    if rows.isEmpty then [] else
    let pairs := rows.filterMap feePair
    (groupKeys (pairs.map Prod.fst)).map (fun m =>
      let fs := (pairs.filter (fun p => p.1 = m)).map Prod.snd
      ⟨m, fs.sum / fs.length⟩)

/-! ## Statement-level helpers and concrete scenarios -/

/-- The `last_err` a single failing attempt leaves behind (`none` would mean
the attempt succeeded, i.e. it does not fail). -/
def describeFailure (a : Attempt) : Option PyErr :=
  match a.2 with
  | .error e => some (.exc e)
  | .ok res => if (res.get "result").isNone then some (.badRpc a.1 res) else none

/-- Endpoint 1 raising a transport exception. -/
def attEndpoint1 : Attempt := ("https://s1.ripple.com:51234", .error "ConnectTimeout")

/-- Endpoint 2 answering 200 with a body that has no `"result"` field. -/
def attEndpoint2 : Attempt :=
  ("https://s2.ripple.com:51234", .ok (.obj [("error", .str "noNetwork")]))

/-- Endpoint 3 answering with a proper `"result"` payload. -/
def attEndpoint3 : Attempt :=
  ("https://xrplcluster.com/", .ok (.obj [("result", .obj [("status", .str "success")])]))

/-- A network on which every endpoint of every call fails at transport level. -/
def netAllFail : String → Json → List Attempt := fun _ _ =>
  [("https://s1.ripple.com:51234", .error "ConnectionError"),
   ("https://s2.ripple.com:51234", .error "ConnectionError"),
   ("https://xrplcluster.com/", .error "ReadTimeout")]

/-- A date parser that always raises (forces the non-human fallback tiers). -/
def parse0 : String → Option Int := fun _ => none

/-- A `server_info` body whose result reports validated ledger 100. -/
def serverInfoBody : Json :=
  .obj [("result", .obj [("info", .obj [("validated_ledger", .obj [("seq", .num 100)])])])]

/-- A `ledger` body holding the given transaction list, closed at 782784000. -/
def ledgerBody (txs : List Json) : Json :=
  .obj [("result", .obj [("ledger", .obj
    [("close_time", .num 782784000),
     ("close_time_human", .str "2024-Oct-11 10:00:00.000000000 UTC"),
     ("transactions", .arr txs)])])]

/-- A network exposing one validated ledger (seq 100) with the given txs. -/
def netOneLedger (txs : List Json) : String → Json → List Attempt := fun method _ =>
  if method = "server_info" then [("https://s1.ripple.com:51234", .ok serverInfoBody)]
  else [("https://s1.ripple.com:51234", .ok (ledgerBody txs))]

/-- A fully-applied transaction with a scalar (native-drops) Amount. -/
def txSuccess : Json :=
  .obj [("Account", .str "rAlice"), ("Amount", .str "25000000"), ("Fee", .str "10"),
        ("TransactionType", .str "Payment"), ("hash", .str "A1B2"),
        ("metaData", .obj [("TransactionResult", .str "tesSUCCESS")])]

/-- A failed transaction (result code `tecPATH_DRY`). -/
def txFailed : Json :=
  .obj [("Account", .str "rBob"), ("Amount", .str "7"), ("Fee", .str "12"),
        ("TransactionType", .str "Payment"), ("hash", .str "C3D4"),
        ("metaData", .obj [("TransactionResult", .str "tecPATH_DRY")])]

/-- A fully-applied transaction with a composite (issued-asset) Amount. -/
def txComposite : Json :=
  .obj [("Account", .str "rCarol"),
        ("Amount", .obj [("currency", .str "USD"), ("issuer", .str "rIssuer"),
                         ("value", .str "123.45")]),
        ("Fee", .str "12"), ("TransactionType", .str "Payment"), ("hash", .str "E5F6"),
        ("metaData", .obj [("TransactionResult", .str "tesSUCCESS")])]

/-- The row `fetch_recent_transactions` materializes for `txSuccess`
(close time taken from the ledger's `close_time` since `parse0` fails). -/
def rowSuccess : TxRow :=
  { hash := some (.str "A1B2"), date_utc := 782784000,
    amount := some (.str "25000000"), fee_drops := some (.str "10"),
    account := some (.str "rAlice"), transaction_type := some (.str "Payment") }

/-- The row materialized for `txComposite`: amount is the `"value"` field. -/
def rowComposite : TxRow :=
  { hash := some (.str "E5F6"), date_utc := 782784000,
    amount := some (.str "123.45"), fee_drops := some (.str "12"),
    account := some (.str "rCarol"), transaction_type := some (.str "Payment") }

/-! ## Lemmas about the endpoint-rotation loop -/

lemma rpcLoop_all_fail (attempts : List Attempt) :
    ∀ (acc : Option PyErr) (st : Option String), attempts.all attemptFails = true →
      rpcLoop attempts acc st = (.error ⟨lastErrOf attempts acc⟩, st) := by
  induction attempts with
  | nil => intro acc st _; rfl
  | cons a rest ih =>
    intro acc st h
    obtain ⟨url, att⟩ := a
    rw [List.all_cons, Bool.and_eq_true] at h
    cases att with
    | error e =>
      simpa [rpcLoop, lastErrOf] using ih (some (.exc e)) st h.2
    | ok res =>
      have hres : res.get "result" = none := by
        have := h.1
        simp only [attemptFails, Option.isNone_iff_eq_none] at this
        exact this
      simp only [rpcLoop, lastErrOf, hres]
      exact ih (some (.badRpc url res)) st h.2

lemma rpcLoop_append_fail (pre : List Attempt) :
    ∀ (rest : List Attempt) (acc : Option PyErr) (st : Option String),
      pre.all attemptFails = true →
      rpcLoop (pre ++ rest) acc st = rpcLoop rest (lastErrOf pre acc) st := by
  induction pre with
  | nil => intro rest acc st _; rfl
  | cons a pre' ih =>
    intro rest acc st h
    obtain ⟨url, att⟩ := a
    rw [List.all_cons, Bool.and_eq_true] at h
    cases att with
    | error e =>
      simpa [rpcLoop, lastErrOf] using ih rest (some (.exc e)) st h.2
    | ok res =>
      have hres : res.get "result" = none := by
        have := h.1
        simp only [attemptFails, Option.isNone_iff_eq_none] at this
        exact this
      simp only [List.cons_append, rpcLoop, lastErrOf, hres]
      exact ih rest (some (.badRpc url res)) st h.2

lemma lastErrOf_getLast (attempts : List Attempt) :
    ∀ (acc : Option PyErr) (a : Attempt), attempts.all attemptFails = true →
      attempts.getLast? = some a → lastErrOf attempts acc = describeFailure a := by
  induction attempts with
  | nil => intro acc a _ hl; cases hl
  | cons x rest ih =>
    intro acc a h hl
    obtain ⟨url, att⟩ := x
    rw [List.all_cons, Bool.and_eq_true] at h
    cases rest with
    | nil =>
      have ha : a = (url, att) := by
        simpa [List.getLast?] using hl.symm
      subst ha
      cases att with
      | error e => simp [lastErrOf, describeFailure]
      | ok res =>
        have hres : res.get "result" = none := by
          have := h.1
          simp only [attemptFails, Option.isNone_iff_eq_none] at this
          exact this
        simp [lastErrOf, describeFailure, hres]
    | cons y rest' =>
      have hl' : (y :: rest').getLast? = some a := by
        simpa [List.getLast?_cons_cons] using hl
      cases att with
      | error e => simpa [lastErrOf] using ih (some (.exc e)) a h.2 hl'
      | ok res =>
        rcases hres : res.get "result" with _ | payload
        · simp only [lastErrOf, hres]
          exact ih (some (.badRpc url res)) a h.2 hl'
        · have := h.1
          simp [attemptFails, hres] at this

/-- **C4.** For every remote procedure call, endpoints are tried in list
order; on the first endpoint whose attempt succeeds (transport success and a
body containing a `"result"` field) that endpoint is recorded as the current
`LAST_ENDPOINT` and its result payload is returned — the equation holds for
every continuation `post`, so no further endpoint is consulted; and when every
endpoint fails, the call fails with the `AllEndpointsFailed` error carrying
the last underlying failure (the description of the last attempt). -/
theorem rpc_first_success_wins_total_failure_reported :
    (∀ (pre : List Attempt) (url : String) (res payload : Json)
        (post : List Attempt) (st : Option String),
        pre.all attemptFails = true → res.get "result" = some payload →
        rpc (pre ++ (url, Except.ok res) :: post) st = (Except.ok payload, some url)) ∧
    (∀ (attempts : List Attempt) (st : Option String),
        attempts.all attemptFails = true →
        rpc attempts st = (Except.error ⟨lastErrOf attempts none⟩, st)) ∧
    (∀ (attempts : List Attempt) (a : Attempt),
        attempts.all attemptFails = true → attempts.getLast? = some a →
        lastErrOf attempts none = describeFailure a) := by
  refine ⟨?_, ?_, ?_⟩
  · intro pre url res payload post st hpre hres
    rw [rpc, rpcLoop_append_fail pre _ none st hpre]
    simp [rpcLoop, hres]
  · intro attempts st h
    exact rpcLoop_all_fail attempts none st h
  · intro attempts a h hl
    exact lastErrOf_getLast attempts none a h hl

/-- Witness for C4: endpoints 1 and 2 fail (exception, missing result), 3
succeeds: its payload is returned and it becomes `LAST_ENDPOINT`; with only
the two failing endpoints the call errors out carrying endpoint 2's bad body. -/
theorem rpc_first_success_wins_total_failure_reported_witness :
    rpc [attEndpoint1, attEndpoint2, attEndpoint3] none =
      (Except.ok (.obj [("status", .str "success")]), some "https://xrplcluster.com/") ∧
    rpc [attEndpoint1, attEndpoint2] none =
      (Except.error ⟨some (.badRpc "https://s2.ripple.com:51234"
        (.obj [("error", .str "noNetwork")]))⟩, none) := by
  constructor
  · exact rpc_first_success_wins_total_failure_reported.1 [attEndpoint1, attEndpoint2]
      "https://xrplcluster.com/" (.obj [("result", .obj [("status", .str "success")])])
      (.obj [("status", .str "success")]) [] none (by rfl) (by rfl)
  · exact rpc_first_success_wins_total_failure_reported.2.1 [attEndpoint1, attEndpoint2]
      none (by rfl)

/-- **C10.** The process-wide `LAST_ENDPOINT` is written only on a successful
endpoint attempt: a call on which every endpoint fails leaves it unchanged. -/
theorem last_endpoint_unchanged_when_all_fail :
    ∀ (attempts : List Attempt) (st : Option String),
      attempts.all attemptFails = true → (rpc attempts st).2 = st := by
  intro attempts st h
  show (rpcLoop attempts none st).2 = st
  rw [rpcLoop_all_fail attempts none st h]

/-- Witness for C10: a failing call with `LAST_ENDPOINT = s1` leaves it `s1`. -/
theorem last_endpoint_unchanged_when_all_fail_witness :
    (rpc [attEndpoint1, attEndpoint2] (some "https://s1.ripple.com:51234")).2 =
      some "https://s1.ripple.com:51234" :=
  last_endpoint_unchanged_when_all_fail [attEndpoint1, attEndpoint2]
    (some "https://s1.ripple.com:51234") (by rfl)

/-- Counterexample to **C1** as stated: on a network where all endpoints fail,
the initial `server_info` call does fail with the all-endpoints error, yet
`fetch_recent_transactions` returns normally with the empty frame (`.ok []`):
the failure is converted into an empty result, not propagated. -/
theorem fetch_initial_failure_not_propagated :
    rpcResult (netAllFail "server_info" (.obj [])) =
      Except.error ⟨some (.exc "ReadTimeout")⟩ ∧
    fetch_recent_transactions netAllFail parse0 1760227200 20 = Except.ok [] :=
  ⟨rfl, rfl⟩

/-- **C1 (amended).** `fetch_recent_transactions` never raises at its
boundary: both when the initial `server_info` call fails on every endpoint
and when no latest validated sequence can be extracted from its result, the
call is caught (`try/except`) and the empty, correctly-typed frame is
returned — the all-endpoints failure is not propagated. -/
theorem fetch_never_raises_empty_on_initial_failure :
    (∀ (net : String → Json → List Attempt) (parse : String → Option Int)
        (now lb : Int),
        (net "server_info" (Json.obj [])).all attemptFails = true →
        fetch_recent_transactions net parse now lb = Except.ok []) ∧
    (∀ (net : String → Json → List Attempt) (parse : String → Option Int)
        (now lb : Int) (info : Json),
        rpcResult (net "server_info" (Json.obj [])) = Except.ok info →
        extractLatest info = none →
        fetch_recent_transactions net parse now lb = Except.ok []) := by
  constructor
  · intro net parse now lb h
    have hres : rpcResult (net "server_info" (.obj [])) =
        Except.error ⟨lastErrOf (net "server_info" (.obj [])) none⟩ := by
      show (rpcLoop (net "server_info" (.obj [])) none none).1 = _
      rw [rpcLoop_all_fail _ none none h]
    simp [fetch_recent_transactions, hres]
  · intro net parse now lb info h1 h2
    simp [fetch_recent_transactions, h1, h2]

/-- Witness for C1 (amended): the all-failing network yields the empty frame. -/
theorem fetch_never_raises_empty_on_initial_failure_witness :
    fetch_recent_transactions netAllFail parse0 7 5 = Except.ok [] :=
  fetch_never_raises_empty_on_initial_failure.1 netAllFail parse0 7 5 (by rfl)

/-- Counterexample to **C2** as stated: for a block with neither a
human-readable timestamp nor an epoch-seconds field, the chosen value is the
Unix epoch (0, i.e. 1970-01-01T00:00:00Z) — `int(close_time_unix or 0)`
defaults the missing field to 0 — not the acquisition-time "now"
(here 1760227200, 2025-10-12). -/
theorem to_utc_neither_field_gives_epoch_not_now :
    _to_utc parse0 1760227200 none none = 0 ∧ (0 : Int) ≠ 1760227200 :=
  ⟨rfl, by decide⟩

/-- **C2 (amended).** The close timestamp fallback: a nonempty human-readable
timestamp that parses is used; otherwise the numeric epoch-seconds field,
*defaulted to 0 when absent*, is converted — so a block with neither field
gets the epoch-zero instant 1970-01-01T00:00:00Z, not "now"; the
acquisition-time "now" is used only when that (defaulted) epoch conversion
itself fails, i.e. the value is outside the convertible datetime range.
All tiers are timezone-aware UTC. -/
theorem to_utc_three_tier_fallback :
    (∀ (parse : String → Option Int) (now : Int) (s : String) (t : Int)
        (u : Option Int), parse s = some t → s ≠ "" →
        _to_utc parse now (some s) u = t) ∧
    (∀ (parse : String → Option Int) (now : Int) (s : String) (t : Int)
        (u : Option Int), parse s = none → utcfromtimestamp (u.getD 0) = some t →
        _to_utc parse now (some s) u = t) ∧
    (∀ (parse : String → Option Int) (now : Int) (t : Int) (u : Option Int),
        utcfromtimestamp (u.getD 0) = some t →
        _to_utc parse now none u = t) ∧
    (∀ (parse : String → Option Int) (now : Int) (u : Option Int),
        utcfromtimestamp (u.getD 0) = none →
        _to_utc parse now none u = now) ∧
    (∀ (parse : String → Option Int) (now : Int),
        _to_utc parse now none none = 0) := by
  refine ⟨?_, ?_, ?_, ?_, ?_⟩
  · intro parse now s t u hp hs
    simp [_to_utc, hs, hp]
  · intro parse now s t u hp hu
    by_cases hs : s = ""
    · subst hs; simp [_to_utc, hu]
    · simp [_to_utc, hs, hp, hu]
  · intro parse now t u hu
    simp [_to_utc, hu]
  · intro parse now u hu
    simp [_to_utc, hu]
  · intro parse now
    simp [_to_utc, utcfromtimestamp]

/-- Witness for C2 (amended): one concrete instance per tier — a parsing
human string wins; a failing parse falls back to the epoch field; an absent
human field uses the epoch field; an out-of-range epoch falls back to now. -/
theorem to_utc_three_tier_fallback_witness :
    _to_utc (fun s => if s = "2024-Oct-11" then some 1728640800 else none) 7
        (some "2024-Oct-11") (some 782784000) = 1728640800 ∧
    _to_utc parse0 7 (some "garbage") (some 782784000) = 782784000 ∧
    _to_utc parse0 7 none (some 782784000) = 782784000 ∧
    _to_utc parse0 7 none (some 999999999999) = 7 :=
  ⟨to_utc_three_tier_fallback.1 (fun s => if s = "2024-Oct-11" then some 1728640800 else none)
      7 "2024-Oct-11" 1728640800 (some 782784000) (by rfl) (by decide),
   to_utc_three_tier_fallback.2.1 parse0 7 "garbage" 782784000 (some 782784000)
      (by rfl) (by decide),
   to_utc_three_tier_fallback.2.2.1 parse0 7 782784000 (some 782784000) (by decide),
   to_utc_three_tier_fallback.2.2.2.1 parse0 7 (some 999999999999) (by decide)⟩

/-- Counterexample to **C3** as stated: a caller-supplied limit of 500 is sent
to the remote call unchanged — the request's `limit` field is 500, which is
not within 1–200, so no clamping happens before the remote call. -/
theorem account_tx_limit_not_clamped :
    (account_tx_params "rHb9CJAWyB4rj91VRWn96DkukG4bwdtyTh" 500).get "limit" =
      some (.num 500) ∧ ¬((500 : Int) ≤ 200) :=
  ⟨rfl, by decide⟩

/-- **C3 (amended).** `get_account_tx` converts the caller-supplied limit with
`int(...)` and passes it through to the remote `account_tx` call unmodified —
no clamping to 1–200 (or any range) is applied on the client side; the
returned envelope count is bounded only by what the server enforces. -/
theorem account_tx_limit_passthrough :
    ∀ (address : String) (limit : Int),
      (account_tx_params address limit).get "limit" = some (.num limit) ∧
      (account_tx_params address limit).get "account" = some (.str address) := by
  intro address limit
  constructor <;> rfl

/-- **C5.** Only transactions whose result code is the success sentinel are
materialized: every row produced by `keepTx` comes from a `tesSUCCESS`
transaction, the number of rows a block contributes equals the number of its
`tesSUCCESS` transactions, and end-to-end a ledger holding one `tesSUCCESS`
and one `tecPATH_DRY` transaction yields exactly the one success row. -/
theorem sampler_keeps_only_success :
    (∀ (dt : Int) (tx : Json) (r : TxRow), keepTx dt tx = some r →
        isTesSuccess ((getObjOr tx "metaData").get "TransactionResult") = true) ∧
    (∀ (dt : Int) (txs : List Json),
        (txs.filterMap (keepTx dt)).length =
        (txs.filter (fun tx =>
          isTesSuccess ((getObjOr tx "metaData").get "TransactionResult"))).length) ∧
    fetch_recent_transactions (netOneLedger [txSuccess, txFailed]) parse0 0 1 =
      Except.ok [rowSuccess] := by
  refine ⟨?_, ?_, ?_⟩
  · intro dt tx r h
    cases hb : isTesSuccess ((getObjOr tx "metaData").get "TransactionResult") with
    | true => rfl
    | false => simp [keepTx, hb] at h
  · intro dt txs
    induction txs with
    | nil => rfl
    | cons tx rest ih =>
      cases hb : isTesSuccess ((getObjOr tx "metaData").get "TransactionResult") with
      | true => simp [keepTx, hb, List.filterMap_cons, List.filter_cons, ih]
      | false => simp [keepTx, hb, List.filterMap_cons, List.filter_cons, ih]
  · rfl

/-- Witness for C5: the kept transaction of the mixed block is `tesSUCCESS`. -/
theorem sampler_keeps_only_success_witness :
    isTesSuccess ((getObjOr txSuccess "metaData").get "TransactionResult") = true :=
  sampler_keeps_only_success.1 782784000 txSuccess rowSuccess (by rfl)

/-- **C6.** Amount normalization: a composite (object) amount contributes its
`"value"` sub-field as-is, any scalar amount passes through unchanged — in
particular `"25000000"` stays `"25000000"` and
`{"currency":"USD","issuer":"r...","value":"123.45"}` becomes `"123.45"` —
and end-to-end the sampled rows carry exactly those normalized amounts. -/
theorem amount_normalization :
    (∀ fields : List (String × Json),
        normalizeAmount (some (.obj fields)) = lookupField fields "value") ∧
    (∀ s : String, normalizeAmount (some (.str s)) = some (.str s)) ∧
    (∀ n : Int, normalizeAmount (some (.num n)) = some (.num n)) ∧
    normalizeAmount none = none ∧
    normalizeAmount (some (.str "25000000")) = some (.str "25000000") ∧
    normalizeAmount (some (.obj [("currency", .str "USD"), ("issuer", .str "rIssuer"),
        ("value", .str "123.45")])) = some (.str "123.45") ∧
    fetch_recent_transactions (netOneLedger [txSuccess, txComposite]) parse0 0 1 =
      Except.ok [rowSuccess, rowComposite] :=
  ⟨fun _ => rfl, fun _ => rfl, fun _ => rfl, rfl, rfl, rfl, rfl⟩

/-! ## Lemmas about the per-minute aggregation -/

lemma sum_map_div (fs : List ℚ) (c : ℚ) :
    (fs.map (fun f => f / c)).sum = fs.sum / c := by
  induction fs with
  | nil => simp
  | cons a tl ih => simp [ih, add_div]

lemma mem_insertKey {x a : Int} : ∀ {l : List Int}, a ∈ insertKey x l ↔ a = x ∨ a ∈ l := by
  intro l
  induction l with
  | nil => simp [insertKey]
  | cons y ys ih =>
    by_cases he : x = y
    · subst he
      rw [insertKey, if_pos rfl]
      simp only [List.mem_cons]
      tauto
    · by_cases hl : x < y
      · simp [insertKey, he, hl]
      · simp only [insertKey, if_neg he, if_neg hl, List.mem_cons, ih]
        tauto

lemma insertKey_sorted {x : Int} : ∀ {l : List Int}, l.Pairwise (· < ·) →
    (insertKey x l).Pairwise (· < ·) := by
  intro l
  induction l with
  | nil => intro _; simp [insertKey]
  | cons y ys ih =>
    intro h
    rw [List.pairwise_cons] at h
    by_cases he : x = y
    · subst he
      rw [insertKey, if_pos rfl, List.pairwise_cons]
      exact h
    · by_cases hl : x < y
      · rw [insertKey, if_neg he, if_pos hl, List.pairwise_cons]
        refine ⟨?_, List.pairwise_cons.mpr h⟩
        intro b hb
        rcases List.mem_cons.1 hb with rfl | hb'
        · exact hl
        · exact lt_trans hl (h.1 b hb')
      · rw [insertKey, if_neg he, if_neg hl, List.pairwise_cons]
        refine ⟨?_, ih h.2⟩
        intro b hb
        rcases mem_insertKey.1 hb with rfl | hb'
        · exact lt_of_le_of_ne (not_lt.mp hl) (Ne.symm he)
        · exact h.1 b hb'

lemma filterMap_filter_eq {α β : Type} (g : α → Option β) (p : α → Bool)
    (h : ∀ a, p a = false → g a = none) :
    ∀ l : List α, l.filterMap g = (l.filter p).filterMap g := by
  intro l
  induction l with
  | nil => rfl
  | cons a tl ih =>
    cases hp : p a with
    | false => simp [List.filter_cons, hp, List.filterMap_cons, h a hp, ih]
    | true =>
      cases hg : g a with
      | none => simp [List.filter_cons, hp, List.filterMap_cons, hg, ih]
      | some b => simp [List.filter_cons, hp, List.filterMap_cons, hg, ih]

lemma groupKeys_sorted_lt (ms : List Int) : (groupKeys ms).Pairwise (· < ·) := by
  induction ms with
  | nil => simp [groupKeys]
  | cons m tl ih => exact insertKey_sorted ih

lemma mem_groupKeys {ms : List Int} {m : Int} : m ∈ groupKeys ms ↔ m ∈ ms := by
  induction ms with
  | nil => simp [groupKeys]
  | cons a tl ih =>
    show m ∈ insertKey a (groupKeys tl) ↔ _
    rw [mem_insertKey, ih]
    simp [List.mem_cons]

lemma groupKeys_nil : groupKeys [] = [] := rfl

lemma groupKeys_map_const {α : Type} (l : List α) (m : Int) (h : l ≠ []) :
    groupKeys (l.map (fun _ => m)) = [m] := by
  induction l with
  | nil => cases h rfl
  | cons a tl ih =>
    cases tl with
    | nil => rfl
    | cons b tl2 =>
      show insertKey m (groupKeys ((b :: tl2).map (fun _ => m))) = [m]
      rw [ih (by simp)]
      simp [insertKey]

/-- **C9.** Both aggregation functions are total at the public interface: on a
`None` input and on an empty input they return the empty result of the
documented column shape (`minute`/`txn_count` and `minute`/`avg_fee_xrp`, the
fields of `CountBucket` and `FeeBucket`) — being total Lean functions, they
never raise. -/
theorem aggregators_total_on_empty :
    compute_txn_per_minute none = [] ∧ compute_avg_fee none = [] ∧
    compute_txn_per_minute (some []) = [] ∧ compute_avg_fee (some []) = [] :=
  ⟨rfl, rfl, rfl, rfl⟩

lemma pairs_of_uniform (m : Int) :
    ∀ rows : List InRec, (∀ r ∈ rows, minuteOf r = some m) →
      rows.filterMap feePair =
        (rows.filterMap InRec.fee_drops).map (fun f => (m, f / 1000000)) := by
  intro rows
  induction rows with
  | nil => intro _; rfl
  | cons r tl ih =>
    intro h
    have hm : minuteOf r = some m := h r (List.mem_cons_self r tl)
    have htl := fun x hx => h x (List.mem_cons_of_mem r hx)
    cases hf : r.fee_drops with
    | none => simp [List.filterMap_cons, feePair, hm, hf, ih htl]
    | some f => simp [List.filterMap_cons, feePair, hm, hf, ih htl]

/-- **C7.** When all rows floor to the same minute `m`, `compute_avg_fee`
returns the single bucket `(m, mean(parsed fees)/1_000_000)` — rows whose fee
fails to parse are excluded by the `dropna`; and in general rows with an
unparseable fee or timestamp are excluded before grouping: the output equals
the output on the pre-filtered rows. -/
theorem avg_fee_is_mean_div_million :
    (∀ (m : Int) (rows : List InRec),
        rows.filterMap InRec.fee_drops ≠ [] →
        (∀ r ∈ rows, minuteOf r = some m) →
        compute_avg_fee (some rows) =
          [⟨m, ((rows.filterMap InRec.fee_drops).sum /
                (rows.filterMap InRec.fee_drops).length) / 1000000⟩]) ∧
    (∀ rows : List InRec,
        compute_avg_fee (some rows) =
        compute_avg_fee (some (rows.filter (fun r =>
          r.date_utc.isSome && r.fee_drops.isSome)))) := by
  constructor
  · intro m rows hfees huni
    have hne : rows ≠ [] := by
      rintro rfl
      exact hfees rfl
    simp only [compute_avg_fee]
    rw [if_neg (by simpa [List.isEmpty_iff] using hne)]
    rw [pairs_of_uniform m rows huni]
    have hcomp : Prod.fst ∘ (fun f : ℚ => (m, f / 1000000)) = fun _ => m := rfl
    rw [List.map_map, hcomp, groupKeys_map_const _ m hfees]
    have hfilter :
        ((rows.filterMap InRec.fee_drops).map (fun f : ℚ => (m, f / 1000000))).filter
            (fun p => p.1 = m) =
          (rows.filterMap InRec.fee_drops).map (fun f : ℚ => (m, f / 1000000)) := by
      apply List.filter_eq_self.mpr
      intro p hp
      obtain ⟨f, _, rfl⟩ := List.mem_map.1 hp
      simp
    simp only [List.map_cons, List.map_nil, hfilter, List.map_map]
    have hsnd : Prod.snd ∘ (fun f : ℚ => (m, f / 1000000)) = fun f => f / 1000000 := rfl
    rw [hsnd, sum_map_div, List.length_map, div_right_comm]
  · intro rows
    have hdrop : ∀ r : InRec, (r.date_utc.isSome && r.fee_drops.isSome) = false →
        feePair r = none := by
      intro r hr
      cases hd : r.date_utc with
      | none => simp [feePair, minuteOf, hd]
      | some t =>
        cases hf : r.fee_drops with
        | none => simp [feePair, minuteOf, hd, hf]
        | some f => rw [hd, hf] at hr; simp at hr
    have hpairs := filterMap_filter_eq feePair
        (fun r => r.date_utc.isSome && r.fee_drops.isSome) hdrop rows
    by_cases h1 : rows.isEmpty
    · have h1' : rows = [] := List.isEmpty_iff.mp h1
      subst h1'
      rfl
    · by_cases h2 : (rows.filter fun r => r.date_utc.isSome && r.fee_drops.isSome).isEmpty
      · have hfil : (rows.filter fun r => r.date_utc.isSome && r.fee_drops.isSome) = [] :=
          List.isEmpty_iff.mp h2
        have hp : rows.filterMap feePair = [] := by rw [hpairs, hfil]; rfl
        have hrhs : compute_avg_fee (some (rows.filter fun r =>
            r.date_utc.isSome && r.fee_drops.isSome)) = [] := by
          rw [hfil]; rfl
        rw [hrhs]
        simp only [compute_avg_fee]
        rw [if_neg (by simp [h1]), hp]
        simp [groupKeys_nil]
      · simp only [compute_avg_fee]
        rw [if_neg (by simp [h1]), if_neg (by simp [h2]), hpairs]

/-- Witness for C7: two same-minute records with fees 10 and 20 drops produce
the single bucket with `avg_fee = 0.000015` XRP. -/
theorem avg_fee_is_mean_div_million_witness :
    compute_avg_fee (some [⟨some 0, some 10⟩, ⟨some 0, some 20⟩]) =
      [⟨0, 0.000015⟩] := by
  rw [avg_fee_is_mean_div_million.1 0 [⟨some 0, some 10⟩, ⟨some 0, some 20⟩]
      (by decide) (by decide)]
  norm_num [List.filterMap_cons, List.filterMap_nil]

/-- **C8.** For every input (including `None`), both per-minute aggregations
return buckets strictly ascending by minute with no duplicate minute keys
(strict `Pairwise (· < ·)` on the key column), and a minute with zero
contributing rows does not appear: every count bucket has a positive count and
every fee bucket is backed by a row that floors to it with a parseable fee. -/
theorem buckets_sorted_distinct_nonempty :
    ∀ df : Option (List InRec),
      ((compute_txn_per_minute df).map CountBucket.minute).Pairwise (· < ·) ∧
      ((compute_avg_fee df).map FeeBucket.minute).Pairwise (· < ·) ∧
      (∀ b ∈ compute_txn_per_minute df, 0 < b.txn_count) ∧
      (∀ b ∈ compute_avg_fee df, ∃ r ∈ df.getD [],
          minuteOf r = some b.minute ∧ r.fee_drops.isSome = true) := by
  intro df
  cases df with
  | none =>
    exact ⟨by simp [compute_txn_per_minute], by simp [compute_avg_fee],
      by simp [compute_txn_per_minute], by simp [compute_avg_fee]⟩
  | some rows =>
    by_cases hE : rows.isEmpty
    · refine ⟨?_, ?_, ?_, ?_⟩ <;>
        simp [compute_txn_per_minute, compute_avg_fee, hE]
    · refine ⟨?_, ?_, ?_, ?_⟩
      · simp only [compute_txn_per_minute]
        rw [if_neg hE, List.pairwise_map, List.pairwise_map]
        exact groupKeys_sorted_lt _
      · simp only [compute_avg_fee]
        rw [if_neg hE, List.pairwise_map, List.pairwise_map]
        exact groupKeys_sorted_lt _
      · intro b hb
        simp only [compute_txn_per_minute] at hb
        rw [if_neg hE] at hb
        obtain ⟨m, hm, rfl⟩ := List.mem_map.1 hb
        have hmem : m ∈ rows.filterMap minuteOf := mem_groupKeys.1 hm
        have hf : m ∈ (rows.filterMap minuteOf).filter (fun x => x = m) :=
          List.mem_filter.2 ⟨hmem, by simp⟩
        exact List.length_pos_of_mem hf
      · intro b hb
        simp only [compute_avg_fee] at hb
        rw [if_neg hE] at hb
        obtain ⟨m, hm, rfl⟩ := List.mem_map.1 hb
        have hmem : m ∈ (rows.filterMap feePair).map Prod.fst := mem_groupKeys.1 hm
        obtain ⟨p, hp, hpm⟩ := List.mem_map.1 hmem
        obtain ⟨r, hr, hfr⟩ := List.mem_filterMap.1 hp
        refine ⟨r, hr, ?_⟩
        show minuteOf r = some m ∧ r.fee_drops.isSome = true
        cases hmo : minuteOf r with
        | none => simp [feePair, hmo] at hfr
        | some mr =>
          cases hf2 : r.fee_drops with
          | none => simp [feePair, hmo, hf2] at hfr
          | some f =>
            have hpeq : (mr, f / 1000000) = p := by
              simpa [feePair, hmo, hf2] using hfr
            subst hpeq
            have hmm : mr = m := hpm
            subst hmm
            exact ⟨rfl, rfl⟩

/-- Witness for C8: on two records in different minutes, the minute-0 count
bucket has a positive count, and the minute-0 fee bucket is backed by a
contributing record. -/
theorem buckets_sorted_distinct_nonempty_witness :
    0 < (⟨0, 1⟩ : CountBucket).txn_count ∧
    (∃ r ∈ [(⟨some 0, some 10⟩ : InRec), ⟨some 120, some 20⟩],
        minuteOf r = some 0 ∧ r.fee_drops.isSome = true) := by
  have h := buckets_sorted_distinct_nonempty
    (some [⟨some 0, some 10⟩, ⟨some 120, some 20⟩])
  refine ⟨h.2.2.1 ⟨0, 1⟩ (by decide), ?_⟩
  have heq : compute_avg_fee (some [(⟨some 0, some 10⟩ : InRec), ⟨some 120, some 20⟩]) =
      [⟨0, 10 / 1000000⟩, ⟨120, 20 / 1000000⟩] := by
    norm_num [compute_avg_fee, feePair, minuteOf, groupKeys, insertKey,
      List.filterMap_cons, List.filterMap_nil, List.filter,
      show Int.fdiv 0 60 = 0 from rfl, show Int.fdiv 120 60 = 2 from rfl]
  have h4 := h.2.2.2 ⟨0, 10 / 1000000⟩ (by rw [heq]; simp)
  simpa using h4
